import Mathlib

/-!
Verification of the uzhavan spreadsheet-analysis scripts.

The repository consists of four standalone Python scripts that open a
spreadsheet workbook, locate a header row by scanning for the first
non-empty row, sample rows, infer per-column value kinds, classify
columns by keyword match on their names, and emit a JSON summary.

This file embeds the relevant parts of those scripts shallowly:

* `CellValue` / `Sheet` model the openpyxl worksheet view (1-indexed
  cells, `max_row` / `max_column` extents, absent cells read as `none`);
* `locateHeader`, `sampleRows`, `colTypes`, `analyzeSheetPy` embed
  `analyze_sheet` of `analyze_excel.py`;
* `collectHeaders`, `msmeSamples`, `columnsNames` embed the
  corresponding pieces of `analyze_excel_final.py`;
* `bucketsOf` / `identifiedFields` and the per-sheet loop embed
  `analyze_excel_comprehensive.py`.

Python `float` values are modelled as `Rat`; no property proved here
depends on floating-point rounding.  Python `set` iteration order is
modelled by an explicit order parameter constrained to produce some
permutation of the distinct inserted elements, which is exactly the
guarantee CPython gives across processes with hash randomisation.
-/

/-- A spreadsheet cell value as observed through openpyxl: text, integer,
float (modelled as `Rat`) or a date/time (modelled as an integer
timestamp).  An absent cell is `Option.none` at the `Sheet` level. -/
inductive CellValue where
  | str (s : String)
  | int (n : Int)
  | float (q : Rat)
  | datetime (t : Int)
deriving DecidableEq, Repr

/-- `type(v).__name__` for the modelled cell values. -/
def CellValue.typeName : CellValue → String
  | .str _ => "str"
  | .int _ => "int"
  | .float _ => "float"
  | .datetime _ => "datetime"

/-- Python truthiness of a cell value (used by `value or placeholder`):
empty strings and zero numbers are falsy, datetimes are truthy. -/
def CellValue.pyTruthy : CellValue → Bool
  | .str s => s ≠ ""
  | .int n => n ≠ 0
  | .float q => q ≠ 0
  | .datetime _ => true

/-- An openpyxl worksheet: a grid of optional cell values together with
the reported `max_row` / `max_column` extents.  The extents are upper
bounds reported by the file, not guarantees of non-emptiness. -/
structure Sheet where
  grid : List (List (Option CellValue))
  max_row : Nat
  max_column : Nat
deriving DecidableEq, Repr

/-- `ws.cell(r, c).value` with 1-indexed `r`, `c`; cells outside the
stored grid read as `none`. -/
def Sheet.cell (ws : Sheet) (r c : Nat) : Option CellValue :=
  ((ws.grid.getD (r - 1) []).getD (c - 1) none)

/-- `[ws.cell(row_idx, col).value for col in range(1, ws.max_column + 1)]`:
the row's values across the sheet's full column span. -/
def rowData (ws : Sheet) (r : Nat) : List (Option CellValue) :=
  (List.range ws.max_column).map (fun c => ws.cell r (c + 1))

/-- `any(v is not None for v in row_data)`. -/
def rowNonEmpty (ws : Sheet) (r : Nat) : Bool :=
  (rowData ws r).any (fun v => v.isSome)

/-- The row indices scanned by the header loop when at most `depth` rows
are examined: rows `1 .. min depth max_row`.  `analyze_excel.py` writes
`range(1, min(10, ws.max_row + 1))`, i.e. `depth = 9`. -/
def scanRows (ws : Sheet) (depth : Nat) : List Nat :=
  List.range' 1 (min depth ws.max_row)

/-- The header locator: the first scanned row containing at least one
non-empty cell, `none` when no scanned row does. -/
def locateHeader (ws : Sheet) (depth : Nat) : Option Nat :=
  (scanRows ws depth).find? (fun r => rowNonEmpty ws r)

/-- Depth of the automatic scan in `analyze_excel.py`:
`range(1, min(10, ws.max_row + 1))` examines at most rows 1 through 9. -/
def autoScanDepth : Nat := 9

/-- `header_row_idx` after the scan loop of `analyze_excel.py`: the
located row, or the fallback initial value 1 when the loop never broke. -/
def headerRowIdx (ws : Sheet) : Nat :=
  (locateHeader ws autoScanDepth).getD 1

/-- `result["headers"]` after the scan loop of `analyze_excel.py`: the
located row's data, or the empty initial list when the loop never broke. -/
def headersOf (ws : Sheet) : List (Option CellValue) :=
  match locateHeader ws autoScanDepth with
  | some r => rowData ws r
  | none => []

/-- The sample-row loop of `analyze_excel.py`: rows
`header_row_idx + 1 .. min(header_row_idx + max_data_rows, max_row)`,
keeping the rows containing at least one non-empty cell. -/
def sampleRows (ws : Sheet) (h max_data_rows : Nat) : List (List (Option CellValue)) :=
  ((List.range' (h + 1) (min (h + max_data_rows) ws.max_row - h)).filter
    (fun r => rowNonEmpty ws r)).map (fun r => rowData ws r)

/-- The row indices of the type-inference window of `analyze_excel.py`:
`range(header_row_idx + 1, min(header_row_idx + 20, ws.max_row + 1))`,
i.e. rows `h + 1 .. min (h + 19) max_row`. -/
def typeWindowRows (ws : Sheet) (h : Nat) : List Nat :=
  List.range' (h + 1) (min (h + 19) ws.max_row - h)

/-- The non-empty cell values observed in column `c` over the
type-inference window past header row `h`. -/
def typeWindow (ws : Sheet) (h c : Nat) : List CellValue :=
  (typeWindowRows ws h).filterMap (fun r => ws.cell r c)

/-- The insertion sequence of type names fed into the `col_types` set. -/
def typeInsertions (ws : Sheet) (h c : Nat) : List String :=
  (typeWindow ws h c).map CellValue.typeName

/-- A conversion from the insertion sequence of a Python `set` to the
list produced by `list(the_set)`: the iteration order of the set. -/
def SetOrder : Type := List String → List String

/-- What CPython guarantees about `list(s)` for a set `s` of strings:
the result enumerates the distinct inserted elements exactly once each,
in some order (the order depends on the per-process hash seed). -/
def ValidSetOrder (o : SetOrder) : Prop :=
  ∀ l : List String, (o l).Perm l.dedup

/-- One possible set iteration order: insertion order of distinct
elements (a valid order for some hash seed). -/
def orderA : SetOrder := fun l => l.dedup

/-- Another possible set iteration order: reverse insertion order of
distinct elements (a valid order for some other hash seed). -/
def orderB : SetOrder := fun l => l.dedup.reverse

/-- `list(col_types) if col_types else ["Empty/None"]`: the reported
types of one column, given the set iteration order `o`. -/
def colTypes (o : SetOrder) (ws : Sheet) (h c : Nat) : List String :=
  let ts := o (typeInsertions ws h c)
  if ts.isEmpty then ["Empty/None"] else ts

/-- `ws.cell(header_row_idx, col_idx).value or f"Column_{col_idx}"`:
the column name used in `column_types`, with Python falsy values
replaced by the placeholder. -/
def colName (ws : Sheet) (h c : Nat) : CellValue :=
  match ws.cell h c with
  | some v => if v.pyTruthy then v else .str ("Column_" ++ toString c)
  | none => .str ("Column_" ++ toString c)

/-- The result record built by `analyze_sheet` in `analyze_excel.py`. -/
structure SheetResult where
  sheet_name : String
  total_rows : Nat
  total_columns : Nat
  headers : List (Option CellValue)
  sample_rows : List (List (Option CellValue))
  column_types : List (CellValue × List String)
deriving DecidableEq, Repr

/-- `analyze_sheet(sheet_name, max_data_rows)` of `analyze_excel.py`,
parameterised by the Python set iteration order `o`. -/
def analyzeSheetPy (o : SetOrder) (name : String) (ws : Sheet)
    (max_data_rows : Nat) : SheetResult :=
  let h := headerRowIdx ws
  { sheet_name := name
    total_rows := ws.max_row
    total_columns := ws.max_column
    headers := headersOf ws
    sample_rows := sampleRows ws h max_data_rows
    column_types :=
      (List.range ws.max_column).map
        (fun c => (colName ws h (c + 1), colTypes o ws h (c + 1))) }

/-- The column-name expression of the final response in
`analyze_excel.py`: `info["headers"][i] if i < len(info["headers"])
else f"Column_{i+1}"`, for `i in range(len(info["headers"]))`.  An
empty header cell yields a `none` name (JSON `null`). -/
def responseColumnNames (hs : List (Option CellValue)) : List (Option CellValue) :=
  (List.range hs.length).map
    (fun i =>
      if hxy : i < hs.length then hs.get ⟨i, hxy⟩
      else some (.str ("Column_" ++ toString (i + 1))))

/-- The number of non-empty cells in a row's value list. -/
def nonEmptyCount (row : List (Option CellValue)) : Nat :=
  row.countP (fun v => v.isSome)

/-- The `data_type` expression of the final response in
`analyze_excel.py`: `info["column_types"][i]["types"][0] if
i < len(info["column_types"]) and info["column_types"][i]["types"]
else "Unknown"`. -/
def responseDataType (cts : List (CellValue × List String)) (i : Nat) : String :=
  if h : i < cts.length then
    match (cts.get ⟨i, h⟩).2 with
    | [] => "Unknown"
    | t :: _ => t
  else "Unknown"

/-- One column record of the final response of `analyze_excel.py`: the
guarded name expression over `info["headers"]` paired with the
`data_type` expression, for `i in range(len(info["headers"]))` (the
constant `description` field is omitted). -/
def responseColumns (info : SheetResult) : List (Option CellValue × String) :=
  (List.range info.headers.length).map
    (fun i =>
      (if hxy : i < info.headers.length then info.headers.get ⟨i, hxy⟩
       else some (.str ("Column_" ++ toString (i + 1))),
       responseDataType info.column_types i))

/-! ## Embedding of `analyze_excel_final.py` -/

/-- The manual header-row override for the msme sheet:
`msme_header_row = 2`. -/
def msme_header_row : Nat := 2

/-- The manual data-start row for the msme sheet: `msme_data_start = 3`. -/
def msme_data_start : Nat := 3

/-- The header-collection loop of `analyze_excel_final.py`: the non-None
cell values of the given header row across the full column span, in
column order. -/
def collectHeaders (ws : Sheet) (headerRow : Nat) : List CellValue :=
  (List.range ws.max_column).filterMap (fun c => ws.cell headerRow (c + 1))

/-- `msme_headers` of `analyze_excel_final.py`. -/
def msmeHeaders (ws : Sheet) : List CellValue :=
  collectHeaders ws msme_header_row

/-- The configured sample-row indices of the msme extraction:
`for row_idx in [3, 5, 10]`. -/
def msmeSampleIdxs : List Nat := [3, 5, 10]

/-- One raw sample row of the msme extraction: the cell values of row
`r` over columns `1 .. len(msme_headers)`. -/
def msmeRawRow (ws : Sheet) (r : Nat) : List (Option CellValue) :=
  (List.range (msmeHeaders ws).length).map (fun c => ws.cell r (c + 1))

/-- `msme_samples` of `analyze_excel_final.py`: for each configured row
index within `max_row`, the raw row, kept when it has at least one
non-None cell. -/
def msmeSamples (ws : Sheet) : List (List (Option CellValue)) :=
  (msmeSampleIdxs.filter
    (fun r => r ≤ ws.max_row && (msmeRawRow ws r).any (fun v => v.isSome))).map
    (fun r => msmeRawRow ws r)

/-- The column-name expression of the `columns` comprehensions in
`analyze_excel_final.py`: `headers[i] if i < len(headers) else
f"Column_{i+1}"`, for `i in range(len(headers))`.  Used for both the
msme and the charter sheet. -/
def columnsNames (hs : List CellValue) : List CellValue :=
  (List.range hs.length).map
    (fun i =>
      if hxy : i < hs.length then hs.get ⟨i, hxy⟩
      else .str ("Column_" ++ toString (i + 1)))

/-! ## Embedding of `analyze_excel_comprehensive.py` -/

/-- A pandas dataframe as read by `pd.read_excel`: column names, the
pandas-inferred dtype string of each column, and the data as a list of
rows (each row one optional value per column).  The dtype inference
itself happens inside pandas and is part of the input here. -/
structure DataFrame where
  columns : List String
  dtypes : List String
  rows : List (List (Option CellValue))
deriving DecidableEq, Repr

/-- The values of column `c` (0-indexed) of a dataframe. -/
def DataFrame.colValues (df : DataFrame) (c : Nat) : List (Option CellValue) :=
  df.rows.map (fun row => row.getD c none)

/-- The keyword list of the location bucket. -/
def locationKeywords : List String :=
  ["location", "place", "area", "region", "district", "state", "address"]

/-- The keyword list of the crop bucket. -/
def cropKeywords : List String :=
  ["crop", "variety", "seed", "seedling", "type", "name"]

/-- The keyword list of the stock bucket. -/
def stockKeywords : List String :=
  ["stock", "quantity", "qty", "count", "amount", "units"]

/-- The keyword list of the outlet bucket. -/
def outletKeywords : List String :=
  ["outlet", "store", "shop", "seller", "vendor"]

/-- Python `str.lower()`, modelled as the ASCII case map over the
string's characters (every keyword matched in the scripts is ASCII). -/
def pyLower (s : String) : String :=
  ⟨s.data.map Char.toLower⟩

/-- `needle` is a leading segment of `hay`. -/
def charsLead : List Char → List Char → Bool
  | [], _ => true
  | _ :: _, [] => false
  | a :: as, b :: bs => a == b && charsLead as bs

/-- Python `needle in hay` on character lists: the needle occurs as a
contiguous segment somewhere in `hay`. -/
def charsContains (needle : List Char) : List Char → Bool
  | [] => charsLead needle []
  | a :: t => charsLead needle (a :: t) || charsContains needle t

/-- Python `needle in s`: substring containment. -/
def strContains (s needle : String) : Bool :=
  charsContains needle.data s.data

/-- `any(keyword in col_lower for keyword in kws)` with
`col_lower = col.lower()`. -/
def matchesBucket (kws : List String) (col : String) : Bool :=
  kws.any (fun k => strContains (pyLower col) k)

/-- The set of buckets a column name falls into, as the four membership
flags (location, crop, stock, outlet) of the classifier loop. -/
def bucketsOf (col : String) : Bool × Bool × Bool × Bool :=
  (matchesBucket locationKeywords col, matchesBucket cropKeywords col,
   matchesBucket stockKeywords col, matchesBucket outletKeywords col)

/-- The `identified_fields` record of one sheet's analysis: the four
accumulated column-name lists. -/
structure IdentifiedFields where
  location_fields : List String
  crop_fields : List String
  stock_fields : List String
  outlet_fields : List String
deriving DecidableEq, Repr

/-- The classifier loop over a dataframe's columns: each bucket list
collects, in column order, the column names matching that bucket. -/
def identifiedFields (df : DataFrame) : IdentifiedFields :=
  { location_fields := df.columns.filter (fun c => matchesBucket locationKeywords c)
    crop_fields := df.columns.filter (fun c => matchesBucket cropKeywords c)
    stock_fields := df.columns.filter (fun c => matchesBucket stockKeywords c)
    outlet_fields := df.columns.filter (fun c => matchesBucket outletKeywords c) }

/-- The per-column `patterns` entry: categorical summary for `object`
dtypes, numeric summary otherwise (floats modelled as `Rat`). -/
inductive ColPattern where
  | categorical (unique_count : Nat) (sample_values : List (Option CellValue))
  | numeric (min max mean : Option Rat) (non_null_count : Nat)
deriving DecidableEq, Repr

/-- The numeric reading of a cell for the numeric-summary branch. -/
def CellValue.toNum : CellValue → Option Rat
  | .int n => some (n : Rat)
  | .float q => some q
  | _ => none

/-- The numeric values present in a column. -/
def numCells (col : List (Option CellValue)) : List Rat :=
  col.filterMap (fun o => o.bind CellValue.toNum)

/-- `float(df[col].min())` over the modelled column, `none` when the
column has no value. -/
def minStat (l : List Rat) : Option Rat :=
  match l with
  | [] => none
  | x :: xs => some (xs.foldl min x)

/-- `float(df[col].max())` over the modelled column. -/
def maxStat (l : List Rat) : Option Rat :=
  match l with
  | [] => none
  | x :: xs => some (xs.foldl max x)

/-- `float(df[col].mean())` over the modelled column (exact rational
mean; no claim depends on float rounding). -/
def meanStat (l : List Rat) : Option Rat :=
  match l with
  | [] => none
  | _ => some (l.foldl (· + ·) 0 / (l.length : Rat))

/-- The distinct elements of a list in order of first appearance, as
`pandas.unique` enumerates them (`seen` accumulates elements already
emitted). -/
def uniqueAux {α : Type} [DecidableEq α] (seen : List α) : List α → List α
  | [] => []
  | a :: t => if a ∈ seen then uniqueAux seen t else a :: uniqueAux (a :: seen) t

/-- `df[col].unique()`: the column's distinct values in order of first
appearance (null included, once, like pandas NaN). -/
def pandasUnique (col : List (Option CellValue)) : List (Option CellValue) :=
  uniqueAux [] col

/-- The `patterns` entry of one column: `df[col].dtype == 'object'`
selects the categorical branch with `nunique` (distinct non-null count)
and the first ten distinct values in order of first appearance; other
dtypes get the numeric summary. -/
def colPattern (dtype : String) (col : List (Option CellValue)) : ColPattern :=
  if dtype = "object" then
    .categorical (col.filterMap id).dedup.length
      ((pandasUnique col).take 10)
  else
    .numeric (minStat (numCells col)) (maxStat (numCells col))
      (meanStat (numCells col)) (numCells col).length

/-- One sheet's analysis record as assembled by the per-sheet body of
`analyze_excel_comprehensive.py`. -/
structure SheetAnalysis where
  num_rows : Nat
  num_cols : Nat
  column_names : List String
  data_types : List (String × String)
  sample_rows : List (List (Option CellValue))
  patterns : List (String × ColPattern)
  identified_fields : IdentifiedFields
deriving DecidableEq, Repr

/-- The per-sheet analysis body (the code inside the `try`), applied to
a successfully read dataframe. -/
def sheetAnalysis (df : DataFrame) : SheetAnalysis :=
  { num_rows := df.rows.length
    num_cols := df.columns.length
    column_names := df.columns
    data_types := df.columns.zip df.dtypes
    sample_rows := df.rows.take 5
    patterns :=
      (List.range df.columns.length).map
        (fun c => (df.columns.getD c "",
          colPattern (df.dtypes.getD c "") (df.colValues c)))
    identified_fields := identifiedFields df }

/-- The per-sheet loop of `analyze_excel_comprehensive.py`: each sheet
name is paired with the outcome of reading and analysing it.  Reading a
sheet (`pd.read_excel`) may raise; the `except` clause records
`{"error": str(e)}` for that sheet and the loop continues.  The input
models, per sheet, either the dataframe pandas produced or the raised
exception's message. -/
def analysisSheets (inputs : List (String × Except String DataFrame)) :
    List (String × Except String SheetAnalysis) :=
  inputs.map (fun p => (p.1, p.2.map sheetAnalysis))

/-- The whole-run outcome of `analyze_excel_comprehensive.py`: the
missing-file guard (`if not Path(excel_path).exists(): ... exit(1)`)
against the rest of the script, which writes the analysis JSON and ends
with the implicit exit status 0.  The input is `none` when the file is
absent, otherwise the per-sheet read outcomes of the workbook. -/
def runComprehensive
    (input : Option (List (String × Except String DataFrame))) :
    Nat × Option (List (String × Except String SheetAnalysis)) :=
  match input with
  | none => (1, none)
  | some sheets => (0, some (analysisSheets sheets))

/-! ## Helper lemmas -/

/-- `List.find?` over `range' s n` returns the least index in the range
satisfying the predicate. -/
lemma find?_range'_first (p : Nat → Bool) :
    ∀ (n s r : Nat), (List.range' s n).find? p = some r →
      s ≤ r ∧ r < s + n ∧ p r = true ∧ ∀ q, s ≤ q → q < r → p q = false := by
  intro n
  induction n with
  | zero => intro s r h; simp [List.range'] at h
  | succ m ih =>
    intro s r h
    rw [show List.range' s (m + 1) = s :: List.range' (s + 1) m from
      List.range'_succ s m 1 ▸ rfl] at h
    by_cases hp : p s = true
    · rw [List.find?_cons_of_pos _ hp] at h
      obtain rfl : s = r := by simpa using h
      exact ⟨le_rfl, by omega, hp, fun q hq1 hq2 => absurd hq1 (by omega)⟩
    · rw [List.find?_cons_of_neg _ (by simpa using hp)] at h
      obtain ⟨h1, h2, h3, h4⟩ := ih (s + 1) r h
      refine ⟨by omega, by omega, h3, fun q hq1 hq2 => ?_⟩
      rcases Nat.eq_or_lt_of_le hq1 with rfl | hlt
      · simpa using hp
      · exact h4 q hlt hq2

/-- The guarded indexing of the `columns` comprehensions returns the
header list unchanged: the guard `i < len(headers)` always holds. -/
lemma columnsNames_eq_self (hs : List CellValue) : columnsNames hs = hs := by
  apply List.ext_getElem
  · simp [columnsNames]
  · intro n h1 h2
    simp only [columnsNames, List.getElem_map, List.getElem_range]
    rw [dif_pos h2]
    simp

/-- Same fact for the response comprehension of `analyze_excel.py`,
whose header entries are optional cell values. -/
lemma responseColumnNames_eq_self (hs : List (Option CellValue)) :
    responseColumnNames hs = hs := by
  apply List.ext_getElem
  · simp [responseColumnNames]
  · intro n h1 h2
    simp only [responseColumnNames, List.getElem_map, List.getElem_range]
    rw [dif_pos h2]
    simp

/-- Counting version of `filterMap`: keeping the `some` results keeps
exactly the elements whose image is `some`. -/
lemma length_filterMap_eq_countP (l : List Nat) (f : Nat → Option CellValue) :
    (l.filterMap f).length = l.countP (fun a => (f a).isSome) := by
  induction l with
  | nil => rfl
  | cons a t ih =>
    cases h : f a <;> simp [List.filterMap_cons, h, List.countP_cons, ih]

/-- Insertion order is a possible Python set iteration order. -/
lemma validOrderA : ValidSetOrder orderA := fun _ => List.Perm.refl _

/-- Reverse insertion order is a possible Python set iteration order. -/
lemma validOrderB : ValidSetOrder orderB := fun l => List.reverse_perm l.dedup

/-- A valid set order sends the empty insertion sequence to the empty
list. -/
lemma validSetOrder_nil {o : SetOrder} (ho : ValidSetOrder o) : o [] = [] :=
  List.Perm.eq_nil (ho [])

/-- Pointwise-related images of one list are `Forall₂`-related. -/
lemma forall₂_map_of_rel {α β : Type} (R : β → β → Prop) (f g : α → β)
    (l : List α) (h : ∀ a ∈ l, R (f a) (g a)) :
    List.Forall₂ R (l.map f) (l.map g) := by
  induction l with
  | nil => simp
  | cons a t ih =>
    simp only [List.map_cons]
    exact List.Forall₂.cons (h a (by simp)) (ih (fun b hb => h b (by simp [hb])))

/-- Two valid set orders produce permutations of one another in the
reported types of any column. -/
lemma colTypes_perm {o1 o2 : SetOrder} (h1 : ValidSetOrder o1)
    (h2 : ValidSetOrder o2) (ws : Sheet) (h c : Nat) :
    (colTypes o1 ws h c).Perm (colTypes o2 ws h c) := by
  unfold colTypes
  by_cases hins : typeInsertions ws h c = []
  · simp [hins, validSetOrder_nil h1, validSetOrder_nil h2]
  · have hd : (typeInsertions ws h c).dedup ≠ [] := by
      intro hde
      exact hins ((List.dedup_eq_nil _).1 hde)
    have e1 : (o1 (typeInsertions ws h c)).isEmpty = false := by
      rw [List.isEmpty_eq_false_iff_exists_mem]
      obtain ⟨x, hx⟩ := List.exists_mem_of_ne_nil _ hd
      exact ⟨x, (h1 _).mem_iff.2 hx⟩
    have e2 : (o2 (typeInsertions ws h c)).isEmpty = false := by
      rw [List.isEmpty_eq_false_iff_exists_mem]
      obtain ⟨x, hx⟩ := List.exists_mem_of_ne_nil _ hd
      exact ⟨x, (h2 _).mem_iff.2 hx⟩
    simp only [e1, e2, Bool.false_eq_true, if_neg]
    exact (h1 _).trans (h2 _).symm

/-- The reported types of a column are never the empty list: an empty
set gives the sentinel, a non-empty set a non-empty list. -/
lemma colTypes_ne_nil (o : SetOrder) (ws : Sheet) (h c : Nat) :
    colTypes o ws h c ≠ [] := by
  intro hnil
  rw [colTypes] at hnil
  by_cases he : (o (typeInsertions ws h c)).isEmpty = true
  · simp [he] at hnil
  · simp only [he, Bool.false_eq_true, if_neg, if_false] at hnil
    rw [hnil] at he
    exact he rfl

/-- When position `i` of `column_types` holds a non-empty types list,
the response's `data_type` expression takes its first element, which is
one of that column's reported labels. -/
lemma responseDataType_mem_of_getElem (cts : List (CellValue × List String))
    (i : Nat) (ct : CellValue × List String)
    (h : cts[i]? = some ct) (hne : ct.2 ≠ []) :
    responseDataType cts i ∈ ct.2 := by
  have hi : i < cts.length := by
    by_contra hlt
    rw [List.getElem?_eq_none (Nat.le_of_not_lt hlt)] at h
    exact Option.noConfusion h
  have hget : cts.get ⟨i, hi⟩ = ct := by
    rw [List.get_eq_getElem]
    have h2 := h
    rw [List.getElem?_eq_getElem hi] at h2
    exact Option.some.inj h2
  rw [responseDataType, dif_pos hi, hget]
  cases hct : ct.2 with
  | nil => exact absurd hct hne
  | cons t ts => simp

/-- In `analyze_sheet`'s result the `data_type` of every in-range
response column is one of that column's observed type labels. -/
lemma analyzeSheetPy_dataType_mem (o : SetOrder) (name : String)
    (ws : Sheet) (m : Nat) (i : Nat) (ct : CellValue × List String)
    (h : (analyzeSheetPy o name ws m).column_types[i]? = some ct) :
    responseDataType (analyzeSheetPy o name ws m).column_types i ∈ ct.2 := by
  have h' : ((List.range ws.max_column).map (fun c =>
      (colName ws (headerRowIdx ws) (c + 1),
       colTypes o ws (headerRowIdx ws) (c + 1))))[i]? = some ct := h
  rw [List.getElem?_map] at h'
  by_cases hi : i < ws.max_column
  · rw [List.getElem?_range hi] at h'
    have hct : ct = (colName ws (headerRowIdx ws) (i + 1),
        colTypes o ws (headerRowIdx ws) (i + 1)) := by
      simpa using h'.symm
    apply responseDataType_mem_of_getElem _ _ _ h
    rw [hct]
    exact colTypes_ne_nil o ws (headerRowIdx ws) (i + 1)
  · exfalso
    rw [List.getElem?_eq_none (by simpa using Nat.le_of_not_lt hi)] at h'
    exact Option.noConfusion h'

/-! ## Concrete sheets used by witnesses and counterexamples -/

/-- A sheet whose first row is empty and whose second row has a value:
the scan must pick row 2. -/
def wsW1 : Sheet :=
  { grid := [[none, none], [none, some (.int 5)]], max_row := 2, max_column := 2 }

/-- A sheet whose found header row has a gap: one text cell, one empty
cell. -/
def wsC2 : Sheet :=
  { grid := [[some (.str "a"), none]], max_row := 1, max_column := 2 }

/-- A sheet with a header row and an entirely empty column window. -/
def wsW3 : Sheet :=
  { grid := [[some (.str "h")]], max_row := 5, max_column := 1 }

/-- A sheet whose single column shows two value kinds (an `int` and a
`str`) in the type-inference window. -/
def wsC7 : Sheet :=
  { grid := [[some (.str "h")], [some (.int 1)], [some (.str "x")]],
    max_row := 3, max_column := 1 }

/-- An entirely empty sheet with more than ten rows. -/
def wsW10 : Sheet := { grid := [], max_row := 12, max_column := 3 }

/-! ## Claims -/

/-- C1.  Header Locator: for every sheet and maximum scan depth, the
locator returns the index of the first row within that depth (rows
`1 .. min depth max_row`) containing at least one non-empty cell across
the sheet's full column span; when no such row exists within the depth
it returns nothing and the script's fallback index 1 applies. -/
theorem locateHeader_first_nonempty_row (ws : Sheet) (d : Nat) :
    (∀ r, locateHeader ws d = some r →
      (1 ≤ r ∧ r ≤ min d ws.max_row) ∧ rowNonEmpty ws r = true ∧
      ∀ q, 1 ≤ q → q < r → rowNonEmpty ws q = false) ∧
    (locateHeader ws d = none →
      ∀ q, 1 ≤ q → q ≤ min d ws.max_row → rowNonEmpty ws q = false) ∧
    (locateHeader ws autoScanDepth = none → headerRowIdx ws = 1) := by
  refine ⟨fun r h => ?_, fun h q hq1 hq2 => ?_, fun h => ?_⟩
  · rw [locateHeader, scanRows] at h
    obtain ⟨h1, h2, h3, h4⟩ := find?_range'_first _ _ _ _ h
    exact ⟨⟨h1, by omega⟩, h3, h4⟩
  · rw [locateHeader, scanRows] at h
    have := List.find?_eq_none.1 h q (List.mem_range'_1.2 ⟨hq1, by omega⟩)
    simpa using this
  · rw [headerRowIdx, h]
    rfl

/-- C1 witness: on `wsW1` the locator returns row 2, which is
non-empty, and row 1 below it is empty. -/
theorem locateHeader_first_nonempty_row_witness :
    rowNonEmpty wsW1 2 = true ∧ rowNonEmpty wsW1 1 = false :=
  ⟨((locateHeader_first_nonempty_row wsW1 9).1 2 (by decide)).2.1,
   ((locateHeader_first_nonempty_row wsW1 9).1 2 (by decide)).2.2 1 le_rfl
     (by decide)⟩

/-- C9.  In `analyze_excel_final.py` the placeholder branch
`f"Column_{i+1}"` of the `columns` comprehensions (msme and charter) is
unreachable: the index always satisfies `i < len(headers)`, so the
reported column names are exactly the collected header values. -/
theorem columnsNames_placeholder_unreachable (hs : List CellValue) :
    columnsNames hs = hs :=
  columnsNames_eq_self hs

/-- C10.  The automatic header scan of `analyze_excel.py` never
examines row 10, and on a sheet whose scanned rows are all empty the
fallbacks apply: `header_row_idx` stays 1, `headers` stays empty, and
the final response reports zero columns for that sheet. -/
theorem autoScan_bound_and_empty_fallback (ws : Sheet) :
    10 ∉ scanRows ws autoScanDepth ∧
    ((∀ r ∈ scanRows ws autoScanDepth, rowNonEmpty ws r = false) →
      headerRowIdx ws = 1 ∧ headersOf ws = [] ∧
      responseColumnNames (headersOf ws) = []) := by
  constructor
  · intro hmem
    have h1 : 10 < 1 + min 9 ws.max_row := by
      simpa [scanRows, autoScanDepth] using hmem
    have h2 : min 9 ws.max_row ≤ 9 := Nat.min_le_left _ _
    omega
  · intro hall
    have hnone : locateHeader ws autoScanDepth = none := by
      rw [locateHeader]
      exact List.find?_eq_none.2 (fun x hx => by simp [hall x hx])
    refine ⟨by rw [headerRowIdx, hnone]; rfl, ?_, ?_⟩
    · rw [headersOf, hnone]
    · rw [headersOf, hnone]
      rfl

/-- C10 witness: on the empty 12-row sheet `wsW10` every scanned row is
empty, so the fallback header index 1, the empty header list and the
zero-column response all hold. -/
theorem autoScan_bound_and_empty_fallback_witness :
    headerRowIdx wsW10 = 1 ∧ headersOf wsW10 = [] ∧
    responseColumnNames (headersOf wsW10) = [] :=
  (autoScan_bound_and_empty_fallback wsW10).2 (by decide)

/-- C2 counterexample: on `wsC2` the found header row is
`[some "a", none]`; `analyze_excel.py` reports two column names (the
full column span) while the header row has only one non-empty cell, so
the claimed equality fails. -/
theorem reported_column_count_counterexample :
    ¬ ((responseColumnNames (headersOf wsC2)).length
        = nonEmptyCount (headersOf wsC2)) := by
  decide

/-- C2 amended.  In `analyze_excel_final.py` the number of reported
column names equals the number of non-empty cells in the chosen header
row; in `analyze_excel.py` the response repeats the header list
verbatim — empty header cells give `null` names, not placeholders — so
the reported column count equals the sheet's full column span whenever
the scan found a header row, and zero otherwise. -/
theorem reported_column_counts (ws : Sheet) (hr : Nat) :
    (columnsNames (collectHeaders ws hr)).length = nonEmptyCount (rowData ws hr) ∧
    responseColumnNames (headersOf ws) = headersOf ws ∧
    (responseColumnNames (headersOf ws)).length =
      (match locateHeader ws autoScanDepth with
       | some _ => ws.max_column
       | none => 0) := by
  refine ⟨?_, responseColumnNames_eq_self _, ?_⟩
  · rw [columnsNames_eq_self, collectHeaders, length_filterMap_eq_countP,
      nonEmptyCount, rowData, List.countP_map]
    rfl
  · rw [responseColumnNames_eq_self, headersOf]
    cases locateHeader ws autoScanDepth with
    | some r => simp [rowData]
    | none => rfl

/-- C3.  Column Type Inferencer: the reported types of a column are the
distinct value-kind labels observed among non-empty cells in the
bounded window past the header; an entirely empty window yields exactly
the sentinel `"Empty/None"` and never a concrete label. -/
theorem colTypes_distinct_labels (o : SetOrder) (ho : ValidSetOrder o)
    (ws : Sheet) (h c : Nat) :
    (typeWindow ws h c = [] → colTypes o ws h c = ["Empty/None"]) ∧
    (typeWindow ws h c ≠ [] →
      (colTypes o ws h c).Nodup ∧
      ∀ s, s ∈ colTypes o ws h c ↔
        ∃ v ∈ typeWindow ws h c, CellValue.typeName v = s) := by
  constructor
  · intro hw
    rw [colTypes]
    simp [typeInsertions, hw, validSetOrder_nil ho]
  · intro hw
    have hins : typeInsertions ws h c ≠ [] := by
      simp [typeInsertions, hw]
    have hd : (typeInsertions ws h c).dedup ≠ [] := by
      intro hde
      exact hins ((List.dedup_eq_nil _).1 hde)
    have e1 : (o (typeInsertions ws h c)).isEmpty = false := by
      rw [List.isEmpty_eq_false_iff_exists_mem]
      obtain ⟨x, hx⟩ := List.exists_mem_of_ne_nil _ hd
      exact ⟨x, (ho _).mem_iff.2 hx⟩
    have hcol : colTypes o ws h c = o (typeInsertions ws h c) := by
      rw [colTypes]
      simp [e1]
    constructor
    · rw [hcol]
      exact (ho _).nodup_iff.2 (List.nodup_dedup _)
    · intro s
      rw [hcol, (ho _).mem_iff, List.mem_dedup, typeInsertions, List.mem_map]

/-- C3 witness: on `wsW3`, whose single column is empty past the
header, the inferred type is exactly the sentinel. -/
theorem colTypes_distinct_labels_witness :
    colTypes orderA wsW3 1 1 = ["Empty/None"] :=
  (colTypes_distinct_labels orderA validOrderA wsW3 1 1).1 (by decide)

/-- C4.  Field-Name Classifier: the bucket set is a function of the
column name's case-folded text alone, so the identified fields of a
dataframe depend only on its column names, never on cell contents; a
name may fall into zero buckets (`"id"`), one bucket (`"District"`), or
several (`"Seed Stock"`). -/
theorem bucketsOf_depends_on_name_only :
    (∀ n1 n2 : String, pyLower n1 = pyLower n2 → bucketsOf n1 = bucketsOf n2) ∧
    (∀ df1 df2 : DataFrame, df1.columns = df2.columns →
      identifiedFields df1 = identifiedFields df2) ∧
    bucketsOf "id" = (false, false, false, false) ∧
    bucketsOf "District" = (true, false, false, false) ∧
    bucketsOf "Seed Stock" = (false, true, true, false) := by
  refine ⟨fun n1 n2 h => ?_, fun df1 df2 h => ?_, ?_, ?_, ?_⟩
  · simp only [bucketsOf, matchesBucket, h]
  · simp only [identifiedFields, matchesBucket, h]
  · decide
  · decide
  · decide

/-- C4 witness: two spellings of the same case-folded name receive the
same bucket set, and the three concrete names above show zero, one and
two buckets. -/
theorem bucketsOf_depends_on_name_only_witness :
    bucketsOf "Qty" = bucketsOf "qty" :=
  bucketsOf_depends_on_name_only.1 "Qty" "qty" (by decide)

/-- C5.  Missing input file: when the input path does not exist the
comprehensive script stops with exit status 1 and writes no output
analysis; when the file exists the run completes with exit status 0 and
the analysis of every sheet is written. -/
theorem runComprehensive_exit_behavior
    (wbk : List (String × Except String DataFrame)) :
    runComprehensive none = (1, none) ∧
    runComprehensive (some wbk) = (0, some (analysisSheets wbk)) :=
  ⟨rfl, rfl⟩

/-- C6.  Per-sheet failure isolation: when reading or analysing the
sheet at position `i` raises, the per-sheet loop records the error
string under that sheet's name; the loop still produces one entry per
sheet, and every successfully read sheet's analysis appears unchanged. -/
theorem analysisSheets_error_isolation
    (inputs : List (String × Except String DataFrame)) (i : Nat)
    (name e : String) (h : inputs[i]? = some (name, Except.error e)) :
    (analysisSheets inputs)[i]? = some (name, Except.error e) ∧
    (analysisSheets inputs).length = inputs.length ∧
    ∀ (j : Nat) (nm : String) (df : DataFrame),
      inputs[j]? = some (nm, Except.ok df) →
      (analysisSheets inputs)[j]?
        = some (nm, (Except.ok (sheetAnalysis df) : Except String SheetAnalysis)) := by
  refine ⟨?_, by simp [analysisSheets], fun j nm df hj => ?_⟩
  · simp [analysisSheets, List.getElem?_map, h, Except.map]
  · simp [analysisSheets, List.getElem?_map, hj, Except.map]

/-- A dataframe that reads successfully, for the C6 witness. -/
def dfW : DataFrame :=
  { columns := ["Stock Qty"], dtypes := ["object"],
    rows := [[some (.str "A")], [some (.str "B")], [some (.str "A")]] }

/-- A two-sheet workbook whose first sheet fails to read and whose
second reads as `dfW`. -/
def inW : List (String × Except String DataFrame) :=
  [("bad", Except.error "boom"), ("good", Except.ok dfW)]

/-- C6 witness: on `inW` the failing sheet is recorded as its error
string and the other sheet's analysis still appears. -/
theorem analysisSheets_error_isolation_witness :
    (analysisSheets inW)[0]? = some ("bad", Except.error "boom") ∧
    (analysisSheets inW)[1]? = some ("good", Except.ok (sheetAnalysis dfW)) :=
  ⟨(analysisSheets_error_isolation inW 0 "bad" "boom" rfl).1,
   (analysisSheets_error_isolation inW 0 "bad" "boom" rfl).2.2 1 "good" dfW rfl⟩

/-- C7 counterexample: `orderA` and `orderB` are both possible Python
set iteration orders, yet on `wsC7` — whose single column shows an
`int` and a `str` in the window — they give different outputs, so the
`analyze_excel.py` output is not a function of the workbook alone. -/
theorem analyzeSheetPy_order_counterexample :
    ValidSetOrder orderA ∧ ValidSetOrder orderB ∧
    analyzeSheetPy orderA "msme" wsC7 3 ≠ analyzeSheetPy orderB "msme" wsC7 3 :=
  ⟨validOrderA, validOrderB, by decide⟩

/-- C7 amended.  Two runs agree on everything except artifacts of the
set iteration order: sheet name, totals, headers, sample rows and the
response column names are identical; each column's types lists are
permutations of one another; and each run's reported `data_type` is
drawn from its column's observed type labels — the same label set in
both runs — so it too may differ between runs on a column with several
observed labels. -/
theorem analyzeSheetPy_deterministic_up_to_type_order
    (o1 o2 : SetOrder) (h1 : ValidSetOrder o1) (h2 : ValidSetOrder o2)
    (name : String) (ws : Sheet) (m : Nat) :
    (analyzeSheetPy o1 name ws m).sheet_name = (analyzeSheetPy o2 name ws m).sheet_name ∧
    (analyzeSheetPy o1 name ws m).total_rows = (analyzeSheetPy o2 name ws m).total_rows ∧
    (analyzeSheetPy o1 name ws m).total_columns = (analyzeSheetPy o2 name ws m).total_columns ∧
    (analyzeSheetPy o1 name ws m).headers = (analyzeSheetPy o2 name ws m).headers ∧
    (analyzeSheetPy o1 name ws m).sample_rows = (analyzeSheetPy o2 name ws m).sample_rows ∧
    List.Forall₂ (fun a b => a.1 = b.1 ∧ List.Perm a.2 b.2)
      (analyzeSheetPy o1 name ws m).column_types
      (analyzeSheetPy o2 name ws m).column_types ∧
    (responseColumns (analyzeSheetPy o1 name ws m)).map Prod.fst
      = (responseColumns (analyzeSheetPy o2 name ws m)).map Prod.fst ∧
    (∀ (i : Nat) (ct : CellValue × List String),
      (analyzeSheetPy o1 name ws m).column_types[i]? = some ct →
      responseDataType (analyzeSheetPy o1 name ws m).column_types i ∈ ct.2) ∧
    (∀ (i : Nat) (ct : CellValue × List String),
      (analyzeSheetPy o2 name ws m).column_types[i]? = some ct →
      responseDataType (analyzeSheetPy o2 name ws m).column_types i ∈ ct.2) := by
  refine ⟨rfl, rfl, rfl, rfl, rfl, ?_, ?_, ?_, ?_⟩
  · exact forall₂_map_of_rel _ _ _ _
      (fun c _ => ⟨rfl, colTypes_perm h1 h2 ws (headerRowIdx ws) (c + 1)⟩)
  · simp only [responseColumns, List.map_map]
    rfl
  · exact fun i ct h => analyzeSheetPy_dataType_mem o1 name ws m i ct h
  · exact fun i ct h => analyzeSheetPy_dataType_mem o2 name ws m i ct h

/-- C7 amended witness: on `wsC7` the two concrete valid orders agree
on the headers, and the first run's reported `data_type` for column 1
is one of that column's observed labels `{int, str}`. -/
theorem analyzeSheetPy_deterministic_up_to_type_order_witness :
    (analyzeSheetPy orderA "msme" wsC7 3).headers
      = (analyzeSheetPy orderB "msme" wsC7 3).headers ∧
    responseDataType (analyzeSheetPy orderA "msme" wsC7 3).column_types 0
      ∈ ["int", "str"] :=
  ⟨(analyzeSheetPy_deterministic_up_to_type_order orderA orderB validOrderA
      validOrderB "msme" wsC7 3).2.2.2.1,
   (analyzeSheetPy_deterministic_up_to_type_order orderA orderB validOrderA
      validOrderB "msme" wsC7 3).2.2.2.2.2.2.2.1 0
      (CellValue.str "h", ["int", "str"]) (by decide)⟩

/-- C8.  MSME scenario: on a sheet shaped like the msme sheet — at
least ten rows, six header strings in row 2, data from row 3 on — the
manual override uses header row 2 and data start 3, and the sample
extraction returns exactly the three configured rows 3, 5 and 10, each
equal to the sheet's raw cell values over the six header columns. -/
theorem msme_scenario_samples (ws : Sheet)
    (hmax : 10 ≤ ws.max_row)
    (hlen : (msmeHeaders ws).length = 6)
    (h3 : (msmeRawRow ws 3).any (fun v => v.isSome) = true)
    (h5 : (msmeRawRow ws 5).any (fun v => v.isSome) = true)
    (h10 : (msmeRawRow ws 10).any (fun v => v.isSome) = true) :
    msme_header_row = 2 ∧ msme_data_start = 3 ∧
    msmeSamples ws = [msmeRawRow ws 3, msmeRawRow ws 5, msmeRawRow ws 10] ∧
    ∀ row ∈ msmeSamples ws, row.length = 6 := by
  have e3 : (3 ≤ ws.max_row) := by omega
  have e5 : (5 ≤ ws.max_row) := by omega
  have e10 : (10 ≤ ws.max_row) := by omega
  have hs : msmeSamples ws = [msmeRawRow ws 3, msmeRawRow ws 5, msmeRawRow ws 10] := by
    rw [msmeSamples, msmeSampleIdxs]
    simp [List.filter_cons, e3, e5, e10, h3, h5, h10]
  refine ⟨rfl, rfl, hs, fun row hrow => ?_⟩
  rw [hs] at hrow
  have hlenrow : ∀ r : Nat, (msmeRawRow ws r).length = 6 := by
    intro r
    rw [msmeRawRow, List.length_map, List.length_range, hlen]
  simp only [List.mem_cons, List.not_mem_nil, or_false] at hrow
  rcases hrow with h | h | h <;> rw [h, hlenrow]

/-- An msme-shaped sheet: a title row, six header strings in row 2, and
data in rows 3 through 10. -/
def wsM : Sheet :=
  { grid :=
      [[some (.str "INCENTIVE SCHEMES"), none, none, none, none, none],
       [some (.str "S.No"), some (.str "Scheme"), some (.str "Eligibility"),
        some (.str "Subsidy"), some (.str "Authority"), some (.str "Remarks")],
       [some (.int 1), some (.str "a3"), none, none, none, none],
       [some (.int 2), some (.str "a4"), none, none, none, none],
       [some (.int 3), some (.str "a5"), none, none, none, none],
       [some (.int 4), some (.str "a6"), none, none, none, none],
       [some (.int 5), some (.str "a7"), none, none, none, none],
       [some (.int 6), some (.str "a8"), none, none, none, none],
       [some (.int 7), some (.str "a9"), none, none, none, none],
       [some (.int 8), some (.str "a10"), none, none, none, none]],
    max_row := 10, max_column := 6 }

/-- C8 witness: on the concrete msme-shaped sheet `wsM` the extraction
returns exactly the three configured raw rows. -/
theorem msme_scenario_samples_witness :
    msme_header_row = 2 ∧ msme_data_start = 3 ∧
    msmeSamples wsM = [msmeRawRow wsM 3, msmeRawRow wsM 5, msmeRawRow wsM 10] :=
  ⟨(msme_scenario_samples wsM (by decide) (by decide) (by decide) (by decide)
      (by decide)).1,
   (msme_scenario_samples wsM (by decide) (by decide) (by decide) (by decide)
      (by decide)).2.1,
   (msme_scenario_samples wsM (by decide) (by decide) (by decide) (by decide)
      (by decide)).2.2.1⟩
